import Mathlib

/-!
Verification of the `eigenlayer-avs-scaffold` generation engine
(`src/generators/scaffold.ts`).

The scaffolder is modelled as a pure function from its inputs (current
working directory, a predicate describing which paths already exist on
disk, the bundled resources shipped next to the compiled tool, the
command-line project name and template option, and the configuration
collected by the interactive prompt) to the ordered trace of filesystem
operations it performs together with its outcome.

Paths are modelled as lists of segments (`path.join` is list append with
`process.cwd()` as the ambient prefix).  Template rendering models the
Handlebars simple-mustache fragment actually exercised by the tool's
templates: a `\x7b\x7bname\x7d\x7d` placeholder is replaced by the
HTML-escaped context value when `name` is bound, and by the empty string
when it is not (Handlebars' default, non-strict missing-value
behaviour); all other characters pass through unchanged.
-/

/-- A filesystem path, as the list of its segments relative to the
filesystem root; `path.join(a, b)` is list append. -/
abbrev FsPath := List String

/-- One filesystem mutation performed by the scaffolder: `fs.ensureDir`
or a file write (`fs.writeFile`, `fs.copy` of a single file, or
`fs.writeJSON`). -/
inductive FSOp where
  | mkdir (p : FsPath)
  | write (p : FsPath) (content : String)
deriving DecidableEq

/-- The AVS template choices offered by the prompt
(`choices: ['task-based', 'oracle']`). -/
inductive TemplateKind where
  | taskBased
  | oracle
deriving DecidableEq

/-- The string value of a template choice as it appears in the
`answers` object. -/
def TemplateKind.str : TemplateKind → String
  | .taskBased => "task-based"
  | .oracle => "oracle"

/-- The `answers` object produced by `inquirer.prompt`: the fields
`projectName`, `template` and `description` (spec §3 `ProjectConfig`). -/
structure ProjectConfig where
  projectName : String
  template : TemplateKind
  description : String
deriving DecidableEq

/-- The ways a scaffolding run can fail before any artifact is
produced: the target directory already exists (`throw new Error(...)`
in `scaffoldProject`), or the interactive prompt was cancelled. -/
inductive ScaffoldError where
  | directoryExists
  | promptCancelled
deriving DecidableEq

/-- The bundled resources shipped next to the compiled tool:
whether the `__dirname/../../contracts` directory exists, the files of
its `interfaces` subdirectory (name and content), the contents of the
three fixed contract files, and the body of
`__dirname/../templates/package.json.hbs` (`none` when reading it
fails, e.g. because the file is not shipped — as in this repository). -/
structure Bundled where
  contractsPresent : Bool
  interfaceFiles : List (String × String)
  taskMailboxSol : String
  taskAVSRegistrarSol : String
  slashingConditionsSol : String
  packageJsonHbs : Option String
deriving DecidableEq

/-- The object serialized into `off-chain/package.json` by
`generateOffChainComponents`. -/
structure OffChainPackageJson where
  name : String
  version : String
  type : String
  dependencies : List (String × String)
deriving DecidableEq

/-- The left-brace character. -/
def lbrace : Char := '\x7b'

/-- The right-brace character. -/
def rbrace : Char := '\x7d'

/-- Handlebars `escapeExpression`: the seven HTML-special characters
are replaced by their entity, every other character is kept. -/
def escapeChar (c : Char) : List Char :=
  if c = '&' then "&amp;".data
  else if c = '<' then "&lt;".data
  else if c = '>' then "&gt;".data
  else if c = '"' then "&quot;".data
  else if c = '\x27' then "&#x27;".data
  else if c = '\x60' then "&#x60;".data
  else if c = '=' then "&#x3D;".data
  else [c]

/-- HTML-escape a whole string, character by character. -/
def hbEscape (s : String) : List Char :=
  (s.data.map escapeChar).flatten

/-- What a double-stache placeholder contributes to the output: the
escaped value when the variable is bound in the context, the empty
string when it is not (Handlebars non-strict default). -/
def hbOut (v : Option String) : List Char :=
  match v with
  | none => []
  | some s => hbEscape s

/-- The rendering state machine over the template's characters.
First argument: `none` while copying literal text, `some acc` while
inside a `\x7b\x7b...\x7d\x7d` placeholder whose name has been read
(reversed) into `acc`.  An unterminated placeholder at the end of input
is emitted back as raw text (never reached by this tool's templates,
which are well formed). -/
def renderChars (ctx : String → Option String) : Option (List Char) → List Char → List Char
  | none, [] => []
  | none, [c] => [c]
  | none, c1 :: c2 :: rest =>
    if c1 = lbrace ∧ c2 = lbrace then renderChars ctx (some []) rest
    else c1 :: renderChars ctx none (c2 :: rest)
  | some acc, [] => lbrace :: lbrace :: acc.reverse
  | some acc, [c] => lbrace :: lbrace :: (c :: acc).reverse
  | some acc, c1 :: c2 :: rest =>
    if c1 = rbrace ∧ c2 = rbrace then
      hbOut (ctx (String.mk acc.reverse)) ++ renderChars ctx none rest
    else renderChars ctx (some (c1 :: acc)) (c2 :: rest)

/-- `Handlebars.compile(body)(context)` for the simple-mustache
fragment used by this tool. -/
def renderTemplate (body : String) (ctx : String → Option String) : String :=
  String.mk (renderChars ctx none body.data)

/-- `getDefaultPackageJsonTemplate` from `scaffold.ts`: the embedded
default body used when reading `package.json.hbs` fails. -/
def getDefaultPackageJsonTemplate : String :=
  "\x7b\n  \"name\": \"\x7b\x7bprojectName\x7d\x7d\",\n  \"version\": \"0.1.0\",\n  \"description\": \"\x7b\x7bdescription\x7d\x7d\",\n  \"scripts\": \x7b\n    \"compile\": \"hardhat compile\",\n    \"test\": \"hardhat test\",\n    \"deploy\": \"hardhat run scripts/deploy.ts\"\n  \x7d,\n  \"devDependencies\": \x7b\n    \"@nomicfoundation/hardhat-toolbox\": \"^4.0.0\",\n    \"hardhat\": \"^2.19.4\",\n    \"typescript\": \"^5.3.3\"\n  \x7d\n\x7d"

/-- `getHardhatConfig` from `scaffold.ts` (a constant body). -/
def getHardhatConfig : String :=
  "import \x7b HardhatUserConfig \x7d from \"hardhat/config\";\nimport \"@nomicfoundation/hardhat-toolbox\";\n\nconst config: HardhatUserConfig = \x7b\n  solidity: \x7b\n    version: \"0.8.20\",\n    settings: \x7b\n      optimizer: \x7b\n        enabled: true,\n        runs: 200,\n      \x7d,\n    \x7d,\n  \x7d,\n  networks: \x7b\n    hardhat: \x7b\n      chainId: 31337,\n    \x7d,\n    localhost: \x7b\n      url: \"http://127.0.0.1:8545\",\n    \x7d,\n  \x7d,\n\x7d;\n\nexport default config;\n"

/-- `getDeployScript` from `scaffold.ts` (a constant body). -/
def getDeployScript : String :=
  "import \x7b ethers \x7d from \"hardhat\";\n\nasync function main() \x7b\n  const [deployer] = await ethers.getSigners();\n  console.log(\"Deploying contracts with account:\", deployer.address);\n\n  const TaskMailbox = await ethers.getContractFactory(\"TaskMailbox\");\n  const mailbox = await TaskMailbox.deploy();\n  await mailbox.waitForDeployment();\n  console.log(\"TaskMailbox deployed to:\", await mailbox.getAddress());\n\n  const TaskAVSRegistrar = await ethers.getContractFactory(\"TaskAVSRegistrar\");\n  const delegationManager = process.env.DELEGATION_MANAGER || ethers.ZeroAddress;\n  const registrar = await TaskAVSRegistrar.deploy(\n    await mailbox.getAddress(),\n    delegationManager\n  );\n  await registrar.waitForDeployment();\n  console.log(\"TaskAVSRegistrar deployed to:\", await registrar.getAddress());\n\x7d\n\nmain()\n  .then(() => process.exit(0))\n  .catch((error) => \x7b\n    console.error(error);\n    process.exit(1);\n  \x7d);\n"

/-- `getTestFile` from `scaffold.ts` (a constant body). -/
def getTestFile : String :=
  "import \x7b expect \x7d from \"chai\";\nimport \x7b ethers \x7d from \"hardhat\";\n\ndescribe(\"TaskMailbox\", function () \x7b\n  it(\"Should submit a task\", async function () \x7b\n    const TaskMailbox = await ethers.getContractFactory(\"TaskMailbox\");\n    const mailbox = await TaskMailbox.deploy();\n    await mailbox.waitForDeployment();\n\n    const taskData = ethers.toUtf8Bytes(\"test task\");\n    const tx = await mailbox.submitTask(taskData);\n    const receipt = await tx.wait();\n\n    expect(receipt).to.not.be.null;\n  \x7d);\n\x7d);\n"

/-- `getAggregatorCode` from `scaffold.ts` (a constant body). -/
def getAggregatorCode : String :=
  "import \x7b ethers \x7d from \x27ethers\x27;\n\nexport class Aggregator \x7b\n  private provider: ethers.Provider;\n  private contract: ethers.Contract;\n\n  constructor(providerUrl: string, contractAddress: string, abi: any[]) \x7b\n    this.provider = new ethers.JsonRpcProvider(providerUrl);\n    this.contract = new ethers.Contract(contractAddress, abi, this.provider);\n  \x7d\n\n  async aggregateTask(taskId: bigint): Promise<void> \x7b\n    // Implement aggregation logic\n    console.log(\x60Aggregating task $\x7btaskId\x7d\x60);\n  \x7d\n\x7d\n"

/-- `getExecutorCode` from `scaffold.ts` (a constant body). -/
def getExecutorCode : String :=
  "import \x7b ethers \x7d from \x27ethers\x27;\n\nexport class Executor \x7b\n  private provider: ethers.Provider;\n  private wallet: ethers.Wallet;\n\n  constructor(providerUrl: string, privateKey: string) \x7b\n    this.provider = new ethers.JsonRpcProvider(providerUrl);\n    this.wallet = new ethers.Wallet(privateKey, this.provider);\n  \x7d\n\n  async executeTask(taskData: string): Promise<string> \x7b\n    // Implement task execution logic\n    console.log(\x60Executing task: $\x7btaskData\x7d\x60);\n    return \x27result\x27;\n  \x7d\n\x7d\n"

/-- The template-resolution step of `createProjectStructure`:
`await fs.readFile(__dirname/../templates/package.json.hbs).catch(() =>
getDefaultPackageJsonTemplate())` — the bundled body when the read
succeeds, the embedded default on any read failure. -/
def loadTemplate (bundled : Bundled) : String :=
  match bundled.packageJsonHbs with
  | some body => body
  | none => getDefaultPackageJsonTemplate

/-- The Handlebars context built from the `answers` object: its three
fields, looked up by name; anything else is unbound. -/
def configContext (config : ProjectConfig) : String → Option String :=
  fun n =>
    if n = "projectName" then some config.projectName
    else if n = "template" then some config.template.str
    else if n = "description" then some config.description
    else none

/-- The content written to the generated root `package.json`:
the resolved template body rendered against the config. -/
def rootPackageJsonContent (bundled : Bundled) (config : ProjectConfig) : String :=
  renderTemplate (loadTemplate bundled) (configContext config)

/-- The off-chain package object literal from
`generateOffChainComponents`. -/
def offChainPackageJson (config : ProjectConfig) : OffChainPackageJson :=
  { name := config.projectName ++ "-off-chain"
    version := "0.1.0"
    type := "module"
    dependencies := [("ethers", "^6.9.2"), ("dotenv", "^16.3.1")] }

/-- JSON string escaping (`JSON.stringify`) for the characters that can
occur in this tool's values. -/
def jsonEscapeChar (c : Char) : List Char :=
  if c = '"' then ['\\', '"']
  else if c = '\\' then ['\\', '\\']
  else if c = '\n' then ['\\', 'n']
  else if c = '\r' then ['\\', 'r']
  else if c = '\t' then ['\\', 't']
  else [c]

/-- A JSON string literal for `s`. -/
def jsonStr (s : String) : String :=
  "\"" ++ String.mk ((s.data.map jsonEscapeChar).flatten) ++ "\""

/-- `fs.writeJSON(path, obj, \x7b spaces: 2 \x7d)`: two-space indented
`JSON.stringify` output with a trailing newline. -/
def offChainJsonString (o : OffChainPackageJson) : String :=
  "\x7b\n  \"name\": " ++ jsonStr o.name ++ ",\n  \"version\": " ++ jsonStr o.version
    ++ ",\n  \"type\": " ++ jsonStr o.type ++ ",\n  \"dependencies\": \x7b\n"
    ++ String.intercalate ",\n"
      (o.dependencies.map fun kv => "    " ++ jsonStr kv.1 ++ ": " ++ jsonStr kv.2)
    ++ "\n  \x7d\n\x7d\n"

/-- `generateOffChainComponents(projectPath, config)`: writes the
aggregator stub, the executor stub, and the off-chain `package.json`,
in that order. -/
def generateOffChainComponents (projectPath : FsPath) (config : ProjectConfig) : List FSOp :=
  [ FSOp.write (projectPath ++ ["off-chain", "aggregator", "index.ts"]) getAggregatorCode,
    FSOp.write (projectPath ++ ["off-chain", "executor", "index.ts"]) getExecutorCode,
    FSOp.write (projectPath ++ ["off-chain", "package.json"])
      (offChainJsonString (offChainPackageJson config)) ]

/-- `createProjectStructure(projectPath, config)`: the seven
`fs.ensureDir` calls, then the conditional verbatim copy of the bundled
contracts (skipped when `__dirname/../../contracts` is absent), then
the rendered root `package.json`, the constant Hardhat config, deploy
script and test file, then the off-chain components. -/
def createProjectStructure (projectPath : FsPath) (bundled : Bundled)
    (config : ProjectConfig) : List FSOp :=
  [ FSOp.mkdir (projectPath ++ ["contracts"]),
    FSOp.mkdir (projectPath ++ ["contracts", "interfaces"]),
    FSOp.mkdir (projectPath ++ ["scripts"]),
    FSOp.mkdir (projectPath ++ ["test"]),
    FSOp.mkdir (projectPath ++ ["off-chain"]),
    FSOp.mkdir (projectPath ++ ["off-chain", "aggregator"]),
    FSOp.mkdir (projectPath ++ ["off-chain", "executor"]) ]
  ++ (if bundled.contractsPresent then
        (bundled.interfaceFiles.map fun nc =>
          FSOp.write (projectPath ++ ["contracts", "interfaces", nc.1]) nc.2)
        ++ [ FSOp.write (projectPath ++ ["contracts", "TaskMailbox.sol"])
               bundled.taskMailboxSol,
             FSOp.write (projectPath ++ ["contracts", "TaskAVSRegistrar.sol"])
               bundled.taskAVSRegistrarSol,
             FSOp.write (projectPath ++ ["contracts", "SlashingConditions.sol"])
               bundled.slashingConditionsSol ]
      else [])
  ++ [ FSOp.write (projectPath ++ ["package.json"]) (rootPackageJsonContent bundled config),
       FSOp.write (projectPath ++ ["hardhat.config.ts"]) getHardhatConfig,
       FSOp.write (projectPath ++ ["scripts", "deploy.ts"]) getDeployScript,
       FSOp.write (projectPath ++ ["test", "TaskMailbox.test.ts"]) getTestFile ]
  ++ generateOffChainComponents projectPath config

/-- `scaffoldProject(projectName, template)`: the target path is
`path.join(process.cwd(), projectName)`; if it already exists the run
throws `Directory ... already exists` before touching the filesystem;
otherwise the prompt collects the config (modelled as the external
input `collected`, `none` when the prompt is cancelled; `templateArg`
only seeds the prompt's default), the project directory is created and
the structure is generated.  Returns the ordered trace of filesystem
mutations together with the terminal error, if any. -/
def scaffoldProject (cwd : FsPath) (fsExists : FsPath → Bool) (bundled : Bundled)
    (projectName : String) (templateArg : TemplateKind)
    (collected : Option ProjectConfig) : List FSOp × Option ScaffoldError :=
  let projectPath := cwd ++ [projectName]
  if fsExists projectPath then ([], some ScaffoldError.directoryExists)
  else
    match collected with
    | none => ([], some ScaffoldError.promptCancelled)
    | some answers =>
      (FSOp.mkdir projectPath :: createProjectStructure projectPath bundled answers, none)

/-- The file paths written by a trace, in order. -/
def writtenPaths (tr : List FSOp) : List FsPath :=
  tr.filterMap fun op =>
    match op with
    | FSOp.write p _ => some p
    | FSOp.mkdir _ => none

/-- The dir-before-write discipline over a trace: every written path's
parent directory appears as an earlier `mkdir` (the accumulator holds
the directories created so far). -/
def wfTrace : List FsPath → List FSOp → Prop
  | _, [] => True
  | made, FSOp.mkdir p :: rest => wfTrace (p :: made) rest
  | made, FSOp.write p _ :: rest => p.dropLast ∈ made ∧ wfTrace made rest

/-- A structural view of a simple-mustache template body: literal
chunks interleaved with named placeholders. -/
inductive TPart where
  | lit (s : String)
  | var (n : String)
deriving DecidableEq

/-- The source text of one part: a literal chunk verbatim, a
placeholder wrapped in double staches. -/
def TPart.src : TPart → List Char
  | TPart.lit s => s.data
  | TPart.var n => lbrace :: lbrace :: (n.data ++ [rbrace, rbrace])

/-- The source text of a whole parts list. -/
def partsSrc (ps : List TPart) : List Char :=
  (ps.map TPart.src).flatten

/-- What one part contributes to the rendered output: a literal chunk
verbatim, a placeholder its (escaped) context value — or nothing when
the name is unbound. -/
def TPart.sem (ctx : String → Option String) : TPart → List Char
  | TPart.lit s => s.data
  | TPart.var n => hbOut (ctx n)

/-- The rendered output of a whole parts list. -/
def partsSem (ctx : String → Option String) (ps : List TPart) : List Char :=
  (ps.map (TPart.sem ctx)).flatten

/-- A literal chunk is unambiguous when it contains no double stache
and does not end in a left brace. -/
def litOk : List Char → Bool
  | [] => true
  | [c] => c != lbrace
  | c1 :: c2 :: rest => (!(c1 == lbrace && c2 == lbrace)) && litOk (c2 :: rest)

/-- A part is well formed when its literal chunk is unambiguous,
resp. its placeholder name contains no right brace. -/
def TPart.wf : TPart → Bool
  | TPart.lit s => litOk s.data
  | TPart.var n => !(n.data.contains rbrace)

/-- The literal chunk of the default template before the
`projectName` placeholder. -/
def chunkA : String := "\x7b\n  \"name\": \""

/-- The literal chunk of the default template between the
`projectName` and `description` placeholders. -/
def chunkB : String := "\",\n  \"version\": \"0.1.0\",\n  \"description\": \""

/-- The literal chunk of the default template after the `description`
placeholder (the constant `scripts` and `devDependencies` blocks). -/
def chunkC : String := "\",\n  \"scripts\": \x7b\n    \"compile\": \"hardhat compile\",\n    \"test\": \"hardhat test\",\n    \"deploy\": \"hardhat run scripts/deploy.ts\"\n  \x7d,\n  \"devDependencies\": \x7b\n    \"@nomicfoundation/hardhat-toolbox\": \"^4.0.0\",\n    \"hardhat\": \"^2.19.4\",\n    \"typescript\": \"^5.3.3\"\n  \x7d\n\x7d"

/-- The default template as a parts list: two placeholders between
three constant chunks. -/
def defaultTemplateParts : List TPart :=
  [TPart.lit chunkA, TPart.var "projectName", TPart.lit chunkB,
   TPart.var "description", TPart.lit chunkC]

/-- Modelled from the spec: the fixed generated file layout enumerated
in §6 (`contracts/interfaces/*` instantiated with the bundled interface
file names), all paths relative to the project root. -/
def specFileSet (root : FsPath) (interfaceNames : List String) : List FsPath :=
  [root ++ ["package.json"],
   root ++ ["hardhat.config.ts"],
   root ++ ["scripts", "deploy.ts"],
   root ++ ["test", "TaskMailbox.test.ts"],
   root ++ ["contracts", "TaskMailbox.sol"],
   root ++ ["contracts", "TaskAVSRegistrar.sol"],
   root ++ ["contracts", "SlashingConditions.sol"]]
  ++ interfaceNames.map (fun n => root ++ ["contracts", "interfaces", n])
  ++ [root ++ ["off-chain", "package.json"],
      root ++ ["off-chain", "aggregator", "index.ts"],
      root ++ ["off-chain", "executor", "index.ts"]]

/-- Modelled from the spec: the root `package.json` that §8 describes,
with the `name` and `description` fields equal to the supplied values
verbatim (no transformation or escaping) and all other fields the
constant chunks of the default template. -/
def specVerbatimRootPackageJson (config : ProjectConfig) : String :=
  chunkA ++ config.projectName ++ chunkB ++ config.description ++ chunkC

/-- A concrete bundled-resources value used by the witnesses: the
contracts root is present with one interface file, and the
`package.json.hbs` read fails (as in this repository, which ships no
`templates` directory). -/
def demoBundled : Bundled :=
  { contractsPresent := true
    interfaceFiles := [("IAVSTaskHook.sol", "interface IAVSTaskHook \x7b\x7d\n")]
    taskMailboxSol := "contract TaskMailbox \x7b\x7d\n"
    taskAVSRegistrarSol := "contract TaskAVSRegistrar \x7b\x7d\n"
    slashingConditionsSol := "contract SlashingConditions \x7b\x7d\n"
    packageJsonHbs := none }

/-- A concrete collected configuration used by the witnesses
(the §8 scenario: `create demo` with description "x"). -/
def demoConfig : ProjectConfig :=
  { projectName := "demo", template := TemplateKind.taskBased, description := "x" }

/-- A filesystem on which no path exists yet. -/
def emptyFs : FsPath → Bool := fun _ => false

/-- A filesystem on which every path exists. -/
def fullFs : FsPath → Bool := fun _ => true

/-- A collected configuration whose projectName differs from the
command-line argument used by the witnesses. -/
def otherConfig : ProjectConfig :=
  { projectName := "other", template := TemplateKind.taskBased, description := "x" }

example : renderTemplate "a\x7b\x7bx\x7d\x7db" (fun n => if n = "x" then some "V" else none) = "aVb" := by decide
example : renderTemplate "a\x7b\x7by\x7d\x7db" (fun n => if n = "x" then some "V" else none) = "ab" := by decide
example : renderTemplate "\x7b\x7bx\x7d\x7d" (fun n => if n = "x" then some "a&b" else none) = "a&amp;b" := by decide

theorem renderChars_lit_append (ctx : String → Option String) :
    ∀ (cs rest : List Char), litOk cs = true →
      renderChars ctx none (cs ++ rest) = cs ++ renderChars ctx none rest := by
  intro cs
  induction cs with
  | nil => intro rest _; simp
  | cons c cs ih =>
    intro rest h
    cases cs with
    | nil =>
      have hc : ¬ c = lbrace := by simpa [litOk] using h
      cases rest with
      | nil => simp [renderChars]
      | cons r rs => simp [renderChars, hc]
    | cons c2 tl =>
      have h1 : ¬ (c = lbrace ∧ c2 = lbrace) := by
        simp only [litOk, Bool.and_eq_true, Bool.not_eq_true', beq_eq_false_iff_ne,
          ne_eq, Bool.not_eq_true] at h
        rcases h with ⟨h1, _⟩
        intro hcc
        simp [hcc.1, hcc.2] at h1
      have h2 : litOk (c2 :: tl) = true := by
        simp only [litOk, Bool.and_eq_true] at h
        exact h.2
      calc renderChars ctx none ((c :: c2 :: tl) ++ rest)
          = c :: renderChars ctx none ((c2 :: tl) ++ rest) := by
            simp [renderChars, h1]
        _ = c :: ((c2 :: tl) ++ renderChars ctx none rest) := by rw [ih rest h2]
        _ = (c :: c2 :: tl) ++ renderChars ctx none rest := rfl

theorem renderChars_var_append (ctx : String → Option String) :
    ∀ (cs : List Char) (acc rest : List Char), cs.contains rbrace = false →
      renderChars ctx (some acc) (cs ++ rbrace :: rbrace :: rest)
        = hbOut (ctx (String.mk (acc.reverse ++ cs))) ++ renderChars ctx none rest := by
  intro cs
  induction cs with
  | nil => intro acc rest _; simp [renderChars]
  | cons c cs ih =>
    intro acc rest h
    have hc : ¬ c = rbrace := by
      intro he
      rw [he] at h
      simp [List.contains_cons] at h
    have htl : cs.contains rbrace = false := by
      simp only [List.contains_cons, Bool.or_eq_false_iff] at h
      exact h.2
    have hne : ¬ (c = rbrace ∧ (cs ++ rbrace :: rbrace :: rest).head? = some rbrace) := by
      intro hcc; exact hc hcc.1
    cases hcs : cs ++ rbrace :: rbrace :: rest with
    | nil => simp at hcs
    | cons d ds =>
      have : renderChars ctx (some acc) (c :: d :: ds)
          = renderChars ctx (some (c :: acc)) (d :: ds) := by
        have hcd : ¬ (c = rbrace ∧ d = rbrace) := fun hcc => hc hcc.1
        simp [renderChars, hcd]
      rw [List.cons_append, hcs, this, ← hcs, ih (c :: acc) rest htl]
      simp

theorem renderChars_parts (ctx : String → Option String) :
    ∀ ps : List TPart, (∀ p ∈ ps, TPart.wf p = true) →
      renderChars ctx none (partsSrc ps) = partsSem ctx ps := by
  intro ps
  induction ps with
  | nil => intro _; simp [partsSrc, partsSem, renderChars]
  | cons p ps ih =>
    intro h
    have hp : TPart.wf p = true := h p (List.mem_cons_self p ps)
    have hps : ∀ q ∈ ps, TPart.wf q = true := fun q hq => h q (List.mem_cons_of_mem p hq)
    cases p with
    | lit s =>
      have : partsSrc (TPart.lit s :: ps) = s.data ++ partsSrc ps := by
        simp [partsSrc, TPart.src]
      rw [this, renderChars_lit_append ctx s.data (partsSrc ps) hp, ih hps]
      simp [partsSem, TPart.sem]
    | var n =>
      have hsrc : partsSrc (TPart.var n :: ps)
          = lbrace :: lbrace :: (n.data ++ rbrace :: rbrace :: partsSrc ps) := by
        simp [partsSrc, TPart.src]
      have hn : n.data.contains rbrace = false := by
        simpa [TPart.wf] using hp
      rw [hsrc]
      have hstep : renderChars ctx none
            (lbrace :: lbrace :: (n.data ++ rbrace :: rbrace :: partsSrc ps))
          = renderChars ctx (some []) (n.data ++ rbrace :: rbrace :: partsSrc ps) := by
        cases hd : n.data ++ rbrace :: rbrace :: partsSrc ps with
        | nil => simp at hd
        | cons d ds => simp [renderChars]
      rw [hstep, renderChars_var_append ctx n.data [] (partsSrc ps) hn, ih hps]
      simp [partsSem, TPart.sem, String.mk]

set_option maxRecDepth 10000 in
theorem defaultTemplate_src :
    getDefaultPackageJsonTemplate.data = partsSrc defaultTemplateParts := by decide

set_option maxRecDepth 10000 in
theorem defaultTemplate_wf : ∀ p ∈ defaultTemplateParts, TPart.wf p = true := by decide

theorem rootContent_eq (bundled : Bundled) (config : ProjectConfig)
    (h : bundled.packageJsonHbs = none) :
    rootPackageJsonContent bundled config
      = String.mk (chunkA.data ++ hbEscape config.projectName ++ chunkB.data
          ++ hbEscape config.description ++ chunkC.data) := by
  have hload : loadTemplate bundled = getDefaultPackageJsonTemplate := by
    simp [loadTemplate, h]
  rw [rootPackageJsonContent, hload, renderTemplate, defaultTemplate_src,
    renderChars_parts (configContext config) defaultTemplateParts defaultTemplate_wf]
  simp [partsSem, defaultTemplateParts, TPart.sem, configContext, hbOut]

theorem escapeChar_flatten_id :
    ∀ l : List Char, (∀ c ∈ l, escapeChar c = [c]) → (l.map escapeChar).flatten = l := by
  intro l
  induction l with
  | nil => intro _; simp
  | cons c cs ih =>
    intro h
    rw [List.map_cons, List.flatten_cons, h c (List.mem_cons_self c cs),
      ih (fun d hd => h d (List.mem_cons_of_mem c hd))]
    rfl

theorem hbEscape_id (s : String) (h : ∀ c ∈ s.data, escapeChar c = [c]) :
    hbEscape s = s.data := by
  rw [hbEscape]
  exact escapeChar_flatten_id s.data h

theorem writtenPaths_nil : writtenPaths [] = [] := rfl

theorem writtenPaths_cons_mkdir (p : FsPath) (tr : List FSOp) :
    writtenPaths (FSOp.mkdir p :: tr) = writtenPaths tr := by
  simp [writtenPaths, List.filterMap_cons]

theorem writtenPaths_cons_write (p : FsPath) (c : String) (tr : List FSOp) :
    writtenPaths (FSOp.write p c :: tr) = p :: writtenPaths tr := by
  simp [writtenPaths, List.filterMap_cons]

theorem writtenPaths_append (l1 l2 : List FSOp) :
    writtenPaths (l1 ++ l2) = writtenPaths l1 ++ writtenPaths l2 := by
  simp [writtenPaths, List.filterMap_append]

theorem writtenPaths_map_writes (l : List (String × String)) (g : String × String → FsPath) :
    writtenPaths (l.map fun nc => FSOp.write (g nc) nc.2) = l.map g := by
  induction l with
  | nil => rfl
  | cons nc tl ih => simp [writtenPaths, List.filterMap_cons] at ih ⊢; exact ih

/-- The file paths produced by a successful run, in the order the code
writes them. -/
theorem scaffold_writtenPaths (cwd : FsPath) (fsExists : FsPath → Bool) (bundled : Bundled)
    (projectName : String) (templateArg : TemplateKind) (answers : ProjectConfig)
    (h1 : fsExists (cwd ++ [projectName]) = false) :
    writtenPaths (scaffoldProject cwd fsExists bundled projectName templateArg (some answers)).1
      = (if bundled.contractsPresent then
           bundled.interfaceFiles.map
             (fun nc => cwd ++ [projectName] ++ ["contracts", "interfaces", nc.1])
           ++ [cwd ++ [projectName] ++ ["contracts", "TaskMailbox.sol"],
               cwd ++ [projectName] ++ ["contracts", "TaskAVSRegistrar.sol"],
               cwd ++ [projectName] ++ ["contracts", "SlashingConditions.sol"]]
         else [])
        ++ [cwd ++ [projectName] ++ ["package.json"],
            cwd ++ [projectName] ++ ["hardhat.config.ts"],
            cwd ++ [projectName] ++ ["scripts", "deploy.ts"],
            cwd ++ [projectName] ++ ["test", "TaskMailbox.test.ts"],
            cwd ++ [projectName] ++ ["off-chain", "aggregator", "index.ts"],
            cwd ++ [projectName] ++ ["off-chain", "executor", "index.ts"],
            cwd ++ [projectName] ++ ["off-chain", "package.json"]] := by
  rw [scaffoldProject]
  simp only [h1, Bool.false_eq_true, if_false, ite_false]
  cases hcp : bundled.contractsPresent with
  | false =>
    simp [createProjectStructure, generateOffChainComponents, hcp,
      writtenPaths_cons_mkdir, writtenPaths_cons_write, writtenPaths_append,
      writtenPaths_nil]
  | true =>
    simp only [createProjectStructure, generateOffChainComponents, hcp, if_true,
      List.cons_append, List.nil_append, List.append_assoc]
    simp only [writtenPaths_cons_mkdir, writtenPaths_cons_write, writtenPaths_append,
      writtenPaths_nil, writtenPaths_map_writes]

theorem wfTrace_writes_append (made : List FsPath) :
    ∀ l rest : List FSOp,
      (∀ op ∈ l, ∃ p c, op = FSOp.write p c ∧ p.dropLast ∈ made) →
      wfTrace made rest → wfTrace made (l ++ rest) := by
  intro l
  induction l with
  | nil => intro rest _ hr; simpa using hr
  | cons op tl ih =>
    intro rest h hr
    have htl : ∀ o ∈ tl, ∃ p c, o = FSOp.write p c ∧ p.dropLast ∈ made :=
      fun o ho => h o (List.mem_cons_of_mem op ho)
    obtain ⟨p, c, rfl, hm⟩ := h op (List.mem_cons_self op tl)
    exact ⟨hm, ih rest htl hr⟩

/-- Every successful run's written paths are exactly the spec §6 file
set (shared membership characterization). -/
theorem scaffold_mem_writtenPaths (cwd : FsPath) (fsExists : FsPath → Bool)
    (bundled : Bundled) (projectName : String) (templateArg : TemplateKind)
    (answers : ProjectConfig)
    (h1 : fsExists (cwd ++ [projectName]) = false)
    (h2 : bundled.contractsPresent = true) :
    ∀ p : FsPath,
      (p ∈ writtenPaths
        (scaffoldProject cwd fsExists bundled projectName templateArg (some answers)).1
      ↔ p ∈ specFileSet (cwd ++ [projectName]) (bundled.interfaceFiles.map Prod.fst)) := by
  intro p
  rw [scaffold_writtenPaths cwd fsExists bundled projectName templateArg answers h1]
  simp only [h2, if_true, specFileSet, List.map_map, Function.comp,
    List.mem_append, List.mem_cons, List.mem_map, List.not_mem_nil]
  aesop

/-- C1: for every project name whose target path does not already
exist, with the bundled resources present, generation succeeds and the
set of written files is exactly the fixed layout of spec §6 (with
`contracts/interfaces/*` the bundled interface files) — no more and no
fewer. -/
theorem generation_exact_file_set (cwd : FsPath) (fsExists : FsPath → Bool)
    (bundled : Bundled) (projectName : String) (templateArg : TemplateKind)
    (answers : ProjectConfig)
    (h1 : fsExists (cwd ++ [projectName]) = false)
    (h2 : bundled.contractsPresent = true) :
    (scaffoldProject cwd fsExists bundled projectName templateArg (some answers)).2 = none
    ∧ ∀ p : FsPath,
        (p ∈ writtenPaths
          (scaffoldProject cwd fsExists bundled projectName templateArg (some answers)).1
        ↔ p ∈ specFileSet (cwd ++ [projectName]) (bundled.interfaceFiles.map Prod.fst)) := by
  constructor
  · simp [scaffoldProject, h1]
  · exact scaffold_mem_writtenPaths cwd fsExists bundled projectName templateArg answers h1 h2

theorem generation_exact_file_set_witness :
    emptyFs ([] ++ ["demo"]) = false ∧ demoBundled.contractsPresent = true
    ∧ ((scaffoldProject [] emptyFs demoBundled "demo" TemplateKind.taskBased
          (some demoConfig)).2 = none
       ∧ ∀ p : FsPath,
          (p ∈ writtenPaths
            (scaffoldProject [] emptyFs demoBundled "demo" TemplateKind.taskBased
              (some demoConfig)).1
          ↔ p ∈ specFileSet ([] ++ ["demo"]) (demoBundled.interfaceFiles.map Prod.fst))) :=
  ⟨rfl, rfl,
    generation_exact_file_set [] emptyFs demoBundled "demo" TemplateKind.taskBased
      demoConfig rfl rfl⟩

/-- C2: when the target path already exists at invocation start, the
run fails with the DirectoryExists error and performs no filesystem
mutation at all (the returned trace is empty); the check runs before
any mutation. -/
theorem existing_directory_aborts (cwd : FsPath) (fsExists : FsPath → Bool)
    (bundled : Bundled) (projectName : String) (templateArg : TemplateKind)
    (collected : Option ProjectConfig)
    (h : fsExists (cwd ++ [projectName]) = true) :
    scaffoldProject cwd fsExists bundled projectName templateArg collected
      = ([], some ScaffoldError.directoryExists) := by
  simp [scaffoldProject, h]

theorem existing_directory_aborts_witness :
    fullFs ([] ++ ["demo"]) = true
    ∧ scaffoldProject [] fullFs demoBundled "demo" TemplateKind.taskBased (some demoConfig)
        = ([], some ScaffoldError.directoryExists) :=
  ⟨rfl,
    existing_directory_aborts [] fullFs demoBundled "demo" TemplateKind.taskBased
      (some demoConfig) rfl⟩

set_option maxRecDepth 100000 in
/-- C3 does not hold as stated: with the repository's template
resolution (the default embedded body, since no `package.json.hbs` is
shipped), a projectName containing `&` is HTML-escaped by Handlebars,
so the rendered name field is not the supplied string verbatim. -/
theorem rootPackageJson_not_verbatim :
    rootPackageJsonContent demoBundled
        { projectName := "a&b", template := TemplateKind.taskBased, description := "x" }
      ≠ specVerbatimRootPackageJson
        { projectName := "a&b", template := TemplateKind.taskBased, description := "x" } := by
  decide

/-- C3 (amended): the rendered root package.json is the constant
template chunks around the HTML-escaped (Handlebars `escapeExpression`)
projectName and description; the fields equal the supplied values
verbatim exactly when those values contain none of the seven escaped
characters; every other field lies in the constant chunks, identical
for every input. -/
theorem rootPackageJson_fields (bundled : Bundled) (config : ProjectConfig)
    (h : bundled.packageJsonHbs = none) :
    rootPackageJsonContent bundled config
      = String.mk (chunkA.data ++ hbEscape config.projectName ++ chunkB.data
          ++ hbEscape config.description ++ chunkC.data)
    ∧ ((∀ c ∈ config.projectName.data, escapeChar c = [c]) →
        hbEscape config.projectName = config.projectName.data)
    ∧ ((∀ c ∈ config.description.data, escapeChar c = [c]) →
        hbEscape config.description = config.description.data) :=
  ⟨rootContent_eq bundled config h, hbEscape_id config.projectName,
    hbEscape_id config.description⟩

set_option maxRecDepth 100000 in
theorem rootPackageJson_fields_witness :
    demoBundled.packageJsonHbs = none
    ∧ (rootPackageJsonContent demoBundled demoConfig
        = String.mk (chunkA.data ++ hbEscape demoConfig.projectName ++ chunkB.data
            ++ hbEscape demoConfig.description ++ chunkC.data)
       ∧ ((∀ c ∈ demoConfig.projectName.data, escapeChar c = [c]) →
           hbEscape demoConfig.projectName = demoConfig.projectName.data)
       ∧ ((∀ c ∈ demoConfig.description.data, escapeChar c = [c]) →
           hbEscape demoConfig.description = demoConfig.description.data)) :=
  ⟨rfl, rootPackageJson_fields demoBundled demoConfig rfl⟩

/-- C4 does not hold as stated: an unrecognized placeholder is not
left in the output as literal text — Handlebars renders it as the
empty string. -/
theorem unrecognized_placeholder_removed :
    renderTemplate "\x7b\x7bfoo\x7d\x7d" (configContext demoConfig) = ""
    ∧ renderTemplate "\x7b\x7bfoo\x7d\x7d" (configContext demoConfig)
        ≠ "\x7b\x7bfoo\x7d\x7d" := by
  constructor
  · decide
  · decide

/-- C4 (amended): for every well-formed template body (literal chunks
interleaved with placeholders) and every context, rendering replaces
each placeholder whose name the context binds by the HTML-escaped bound
value and each unrecognized placeholder by the empty string (no error),
leaving literal chunks unchanged; rendering is a pure function of the
body and the context. -/
theorem render_substitution_semantics (ctx : String → Option String) (ps : List TPart)
    (h : ∀ p ∈ ps, TPart.wf p = true) :
    renderTemplate (String.mk (partsSrc ps)) ctx = String.mk (partsSem ctx ps)
    ∧ (∀ n v, ctx n = some v → TPart.sem ctx (TPart.var n) = hbEscape v)
    ∧ (∀ n, ctx n = none → TPart.sem ctx (TPart.var n) = []) := by
  refine ⟨?_, ?_, ?_⟩
  · show String.mk (renderChars ctx none (partsSrc ps)) = String.mk (partsSem ctx ps)
    rw [renderChars_parts ctx ps h]
  · intro n v hv; simp [TPart.sem, hbOut, hv]
  · intro n hn; simp [TPart.sem, hbOut, hn]

theorem render_substitution_semantics_witness :
    (∀ p ∈ [TPart.lit "a: ", TPart.var "projectName", TPart.var "missing"],
      TPart.wf p = true)
    ∧ (renderTemplate
          (String.mk (partsSrc [TPart.lit "a: ", TPart.var "projectName", TPart.var "missing"]))
          (configContext demoConfig)
        = String.mk (partsSem (configContext demoConfig)
            [TPart.lit "a: ", TPart.var "projectName", TPart.var "missing"])
       ∧ (∀ n v, configContext demoConfig n = some v →
            TPart.sem (configContext demoConfig) (TPart.var n) = hbEscape v)
       ∧ (∀ n, configContext demoConfig n = none →
            TPart.sem (configContext demoConfig) (TPart.var n) = [])) :=
  ⟨by decide,
    render_substitution_semantics (configContext demoConfig)
      [TPart.lit "a: ", TPart.var "projectName", TPart.var "missing"] (by decide)⟩

/-- C5: when reading the bundled template body fails, `loadTemplate`
returns the embedded default body instead of propagating the failure,
and the overall generation still succeeds producing the full file
set. -/
theorem template_fallback_keeps_generation (cwd : FsPath) (fsExists : FsPath → Bool)
    (bundled : Bundled) (projectName : String) (templateArg : TemplateKind)
    (answers : ProjectConfig)
    (h0 : bundled.packageJsonHbs = none)
    (h1 : fsExists (cwd ++ [projectName]) = false)
    (h2 : bundled.contractsPresent = true) :
    loadTemplate bundled = getDefaultPackageJsonTemplate
    ∧ (scaffoldProject cwd fsExists bundled projectName templateArg (some answers)).2 = none
    ∧ ∀ p : FsPath,
        (p ∈ writtenPaths
          (scaffoldProject cwd fsExists bundled projectName templateArg (some answers)).1
        ↔ p ∈ specFileSet (cwd ++ [projectName]) (bundled.interfaceFiles.map Prod.fst)) := by
  refine ⟨?_, ?_, ?_⟩
  · simp [loadTemplate, h0]
  · simp [scaffoldProject, h1]
  · exact scaffold_mem_writtenPaths cwd fsExists bundled projectName templateArg answers h1 h2

theorem template_fallback_keeps_generation_witness :
    demoBundled.packageJsonHbs = none ∧ emptyFs ([] ++ ["demo"]) = false
    ∧ demoBundled.contractsPresent = true
    ∧ (loadTemplate demoBundled = getDefaultPackageJsonTemplate
       ∧ (scaffoldProject [] emptyFs demoBundled "demo" TemplateKind.taskBased
            (some demoConfig)).2 = none
       ∧ ∀ p : FsPath,
          (p ∈ writtenPaths
            (scaffoldProject [] emptyFs demoBundled "demo" TemplateKind.taskBased
              (some demoConfig)).1
          ↔ p ∈ specFileSet ([] ++ ["demo"]) (demoBundled.interfaceFiles.map Prod.fst))) :=
  ⟨rfl, rfl, rfl,
    template_fallback_keeps_generation [] emptyFs demoBundled "demo"
      TemplateKind.taskBased demoConfig rfl rfl rfl⟩

/-- C6: when the bundled contracts root is absent, the verbatim copy of
the interface and contract files is skipped, generation still succeeds
producing exactly the remaining artifacts, and — asymmetrically — the
template path is never skipped: even with the bundled template body
also missing, `loadTemplate` still yields the embedded default. -/
theorem missing_contracts_root_skipped (cwd : FsPath) (fsExists : FsPath → Bool)
    (bundled : Bundled) (projectName : String) (templateArg : TemplateKind)
    (answers : ProjectConfig)
    (h1 : fsExists (cwd ++ [projectName]) = false)
    (h2 : bundled.contractsPresent = false) :
    (scaffoldProject cwd fsExists bundled projectName templateArg (some answers)).2 = none
    ∧ writtenPaths
        (scaffoldProject cwd fsExists bundled projectName templateArg (some answers)).1
      = [cwd ++ [projectName] ++ ["package.json"],
         cwd ++ [projectName] ++ ["hardhat.config.ts"],
         cwd ++ [projectName] ++ ["scripts", "deploy.ts"],
         cwd ++ [projectName] ++ ["test", "TaskMailbox.test.ts"],
         cwd ++ [projectName] ++ ["off-chain", "aggregator", "index.ts"],
         cwd ++ [projectName] ++ ["off-chain", "executor", "index.ts"],
         cwd ++ [projectName] ++ ["off-chain", "package.json"]]
    ∧ loadTemplate { bundled with packageJsonHbs := none } = getDefaultPackageJsonTemplate := by
  refine ⟨?_, ?_, ?_⟩
  · simp [scaffoldProject, h1]
  · rw [scaffold_writtenPaths cwd fsExists bundled projectName templateArg answers h1]
    simp [h2]
  · simp [loadTemplate]

theorem missing_contracts_root_skipped_witness :
    emptyFs ([] ++ ["demo"]) = false
    ∧ ({ demoBundled with contractsPresent := false } : Bundled).contractsPresent = false
    ∧ ((scaffoldProject [] emptyFs { demoBundled with contractsPresent := false } "demo"
          TemplateKind.taskBased (some demoConfig)).2 = none
       ∧ writtenPaths
          (scaffoldProject [] emptyFs { demoBundled with contractsPresent := false } "demo"
            TemplateKind.taskBased (some demoConfig)).1
        = [[] ++ ["demo"] ++ ["package.json"],
           [] ++ ["demo"] ++ ["hardhat.config.ts"],
           [] ++ ["demo"] ++ ["scripts", "deploy.ts"],
           [] ++ ["demo"] ++ ["test", "TaskMailbox.test.ts"],
           [] ++ ["demo"] ++ ["off-chain", "aggregator", "index.ts"],
           [] ++ ["demo"] ++ ["off-chain", "executor", "index.ts"],
           [] ++ ["demo"] ++ ["off-chain", "package.json"]]
       ∧ loadTemplate { ({ demoBundled with contractsPresent := false } : Bundled) with
            packageJsonHbs := none } = getDefaultPackageJsonTemplate) :=
  ⟨rfl, rfl,
    missing_contracts_root_skipped [] emptyFs { demoBundled with contractsPresent := false }
      "demo" TemplateKind.taskBased demoConfig rfl rfl⟩

/-- C7: two invocations identical except for the selected template
(`oracle` vs `task-based`) produce identical traces and outcomes —
with the repository's bundled template body absent (as shipped, no
`templates/package.json.hbs` exists), the template selection does not
influence a single byte of the output. -/
theorem template_choice_noninterference (cwd : FsPath) (fsExists : FsPath → Bool)
    (bundled : Bundled) (projectName : String) (templateArg : TemplateKind)
    (name desc : String)
    (h : bundled.packageJsonHbs = none) :
    scaffoldProject cwd fsExists bundled projectName templateArg
        (some { projectName := name, template := TemplateKind.oracle, description := desc })
      = scaffoldProject cwd fsExists bundled projectName templateArg
        (some { projectName := name, template := TemplateKind.taskBased, description := desc }) := by
  rw [scaffoldProject, scaffoldProject]
  cases hfs : fsExists (cwd ++ [projectName]) with
  | true => simp
  | false =>
    simp only [Bool.false_eq_true, if_false, ite_false]
    rw [createProjectStructure, createProjectStructure,
      rootContent_eq bundled
        { projectName := name, template := TemplateKind.oracle, description := desc } h,
      rootContent_eq bundled
        { projectName := name, template := TemplateKind.taskBased, description := desc } h]
    simp [generateOffChainComponents, offChainPackageJson]

theorem template_choice_noninterference_witness :
    demoBundled.packageJsonHbs = none
    ∧ scaffoldProject [] emptyFs demoBundled "demo" TemplateKind.taskBased
        (some { projectName := "demo", template := TemplateKind.oracle, description := "x" })
      = scaffoldProject [] emptyFs demoBundled "demo" TemplateKind.taskBased
        (some { projectName := "demo", template := TemplateKind.taskBased, description := "x" }) :=
  ⟨rfl,
    template_choice_noninterference [] emptyFs demoBundled "demo" TemplateKind.taskBased
      "demo" "x" rfl⟩

/-- C8: for every configuration, the generated off-chain package object
has name equal to the collected projectName with the suffix
"-off-chain", version "0.1.0", type "module", and the fixed dependency
set; its serialization is written to `off-chain/package.json`. -/
theorem offchain_package_name (config : ProjectConfig) :
    (offChainPackageJson config).name = config.projectName ++ "-off-chain"
    ∧ (offChainPackageJson config).version = "0.1.0"
    ∧ (offChainPackageJson config).type = "module"
    ∧ (offChainPackageJson config).dependencies
        = [("ethers", "^6.9.2"), ("dotenv", "^16.3.1")]
    ∧ ∀ root : FsPath,
        FSOp.write (root ++ ["off-chain", "package.json"])
            (offChainJsonString (offChainPackageJson config))
          ∈ generateOffChainComponents root config := by
  refine ⟨rfl, rfl, rfl, rfl, ?_⟩
  intro root
  simp [generateOffChainComponents]

/-- C9: in every run — successful or failing — no file is ever written
before the directory containing it has been created, and the creation
of the root project directory is the first operation of every nonempty
trace, preceding every other directory creation and file write. -/
theorem dir_before_write (cwd : FsPath) (fsExists : FsPath → Bool) (bundled : Bundled)
    (projectName : String) (templateArg : TemplateKind)
    (collected : Option ProjectConfig) :
    wfTrace [] (scaffoldProject cwd fsExists bundled projectName templateArg collected).1
    ∧ ((scaffoldProject cwd fsExists bundled projectName templateArg collected).1.head?
          = none
       ∨ (scaffoldProject cwd fsExists bundled projectName templateArg collected).1.head?
          = some (FSOp.mkdir (cwd ++ [projectName]))) := by
  cases hfs : fsExists (cwd ++ [projectName]) with
  | true =>
    have he : scaffoldProject cwd fsExists bundled projectName templateArg collected
        = ([], some ScaffoldError.directoryExists) := by
      simp [scaffoldProject, hfs]
    rw [he]
    exact ⟨trivial, Or.inl rfl⟩
  | false =>
    cases collected with
    | none =>
      have he : scaffoldProject cwd fsExists bundled projectName templateArg none
          = ([], some ScaffoldError.promptCancelled) := by
        simp [scaffoldProject, hfs]
      rw [he]
      exact ⟨trivial, Or.inl rfl⟩
    | some answers =>
      have he : scaffoldProject cwd fsExists bundled projectName templateArg (some answers)
          = (FSOp.mkdir (cwd ++ [projectName])
              :: createProjectStructure (cwd ++ [projectName]) bundled answers, none) := by
        simp [scaffoldProject, hfs]
      rw [he]
      refine ⟨?_, Or.inr rfl⟩
      show wfTrace [cwd ++ [projectName]]
        (createProjectStructure (cwd ++ [projectName]) bundled answers)
      rw [createProjectStructure]
      cases hcp : bundled.contractsPresent with
      | false =>
        simp [hcp, generateOffChainComponents, wfTrace, List.dropLast_append_cons,
          List.dropLast_single, List.append_assoc]
      | true =>
        simp only [hcp, if_true, generateOffChainComponents, List.cons_append,
          List.nil_append, List.append_assoc]
        simp only [wfTrace]
        refine wfTrace_writes_append _
          (List.map (fun nc =>
            FSOp.write (cwd ++ [projectName, "contracts", "interfaces", nc.1]) nc.2)
            bundled.interfaceFiles) _ ?_ ?_
        · intro op hop
          simp only [List.mem_map] at hop
          obtain ⟨nc, _, rfl⟩ := hop
          refine ⟨_, _, rfl, ?_⟩
          simp [List.dropLast_append_cons, List.dropLast_single]
        · simp [wfTrace, List.dropLast_append_cons, List.dropLast_single]

/-- C10: the target directory is derived from the command-line
project-name argument, while the rendered root package name and the
off-chain package name use the prompt-collected projectName: when the
two differ, the root directory created is named by the argument, and
both generated package names embed the collected value. -/
theorem cli_name_vs_collected_name (cwd : FsPath) (fsExists : FsPath → Bool)
    (bundled : Bundled) (projectName : String) (templateArg : TemplateKind)
    (answers : ProjectConfig)
    (h0 : bundled.packageJsonHbs = none)
    (h1 : fsExists (cwd ++ [projectName]) = false)
    (hne : answers.projectName ≠ projectName) :
    (scaffoldProject cwd fsExists bundled projectName templateArg (some answers)).1.head?
        = some (FSOp.mkdir (cwd ++ [projectName]))
    ∧ FSOp.write (cwd ++ [projectName] ++ ["package.json"])
        (String.mk (chunkA.data ++ hbEscape answers.projectName ++ chunkB.data
          ++ hbEscape answers.description ++ chunkC.data))
        ∈ (scaffoldProject cwd fsExists bundled projectName templateArg (some answers)).1
    ∧ FSOp.write (cwd ++ [projectName] ++ ["off-chain", "package.json"])
        (offChainJsonString
          { name := answers.projectName ++ "-off-chain", version := "0.1.0",
            type := "module",
            dependencies := [("ethers", "^6.9.2"), ("dotenv", "^16.3.1")] })
        ∈ (scaffoldProject cwd fsExists bundled projectName templateArg (some answers)).1 := by
  refine ⟨?_, ?_, ?_⟩
  · simp [scaffoldProject, h1]
  · rw [← rootContent_eq bundled answers h0]
    simp [scaffoldProject, h1, createProjectStructure, generateOffChainComponents]
  · simp [scaffoldProject, h1, createProjectStructure, generateOffChainComponents,
      offChainPackageJson]

theorem cli_name_vs_collected_name_witness :
    demoBundled.packageJsonHbs = none ∧ emptyFs ([] ++ ["demo"]) = false
    ∧ otherConfig.projectName ≠ "demo"
    ∧ ((scaffoldProject [] emptyFs demoBundled "demo" TemplateKind.taskBased
          (some otherConfig)).1.head?
          = some (FSOp.mkdir ([] ++ ["demo"]))
       ∧ FSOp.write ([] ++ ["demo"] ++ ["package.json"])
          (String.mk (chunkA.data ++ hbEscape otherConfig.projectName ++ chunkB.data
            ++ hbEscape otherConfig.description ++ chunkC.data))
          ∈ (scaffoldProject [] emptyFs demoBundled "demo" TemplateKind.taskBased
              (some otherConfig)).1
       ∧ FSOp.write ([] ++ ["demo"] ++ ["off-chain", "package.json"])
          (offChainJsonString
            { name := otherConfig.projectName ++ "-off-chain", version := "0.1.0",
              type := "module",
              dependencies := [("ethers", "^6.9.2"), ("dotenv", "^16.3.1")] })
          ∈ (scaffoldProject [] emptyFs demoBundled "demo" TemplateKind.taskBased
              (some otherConfig)).1) :=
  ⟨rfl, rfl, by decide,
    cli_name_vs_collected_name [] emptyFs demoBundled "demo" TemplateKind.taskBased
      otherConfig rfl rfl (by decide)⟩
